import Mathlib

/-!
Verification of the zello-client protocol/transport and audio pipeline.

This file shallowly embeds the Rust source (src/message.rs, src/protocol.rs,
src/client.rs, src/handlers.rs) into Lean: pure functions become Lean
functions, stateful methods become explicit state-passing functions that also
return the list of transport writes they perform, machine integers are `Nat`
with explicit `% 2^w` where wrapping matters, fallible code returns `Except`,
and a `bytes::Buf` read that would panic is modelled by `Option` with `none`
standing for the panic.
-/

namespace Zello

/-- Error kinds of src/error.rs (`ZelloError`); payloads are the formatted
message strings. -/
inductive ZelloError where
  | ConnectionError (msg : String)
  | AuthenticationError (msg : String)
  | ProtocolError (msg : String)
  | JsonError (msg : String)
  | WebSocketError (msg : String)
  | AudioError (msg : String)
  | NotConnected
  | ConfigError (msg : String)
  | Timeout
deriving DecidableEq, Repr

/-- Channel image information (src/message.rs `ChannelImage`). -/
structure ChannelImage where
  url : String
  thumbnail_url : Option String
deriving DecidableEq, Repr

/-- Outgoing messages (src/message.rs `Message`), serde-tagged by "command". -/
inductive Message where
  | Logon (seq : Nat) (username password auth_token : Option String)
      (channels : Option (List String))
  | SendTextMessage (seq : Nat) (channel : String) (for_user : Option String)
      (text : String)
  | StartStream (seq : Nat) (channel : String) (for_user : Option String)
      (codec : String) (codec_header : Option String) (packet_duration : Nat)
  | StopStream (seq : Nat) (stream_id : Nat)
deriving DecidableEq, Repr

/-- Constructor `Message::logon_password`. -/
def Message.logon_password (seq : Nat) (username password auth_token channel : String) :
    Message :=
  .Logon seq (some username) (some password) (some auth_token) (some [channel])

/-- Constructor `Message::logon_token`. -/
def Message.logon_token (seq : Nat) (auth_token channel : String) : Message :=
  .Logon seq none none (some auth_token) (some [channel])

/-- Constructor `Message::send_text`. -/
def Message.send_text (seq : Nat) (channel text : String) : Message :=
  .SendTextMessage seq channel none text

/-- Constructor `Message::send_text_for_callsign`. -/
def Message.send_text_for_callsign (seq : Nat) (channel text for_user : String) :
    Message :=
  .SendTextMessage seq channel (some for_user) text

/-- Constructor `Message::start_stream`. -/
def Message.start_stream (seq : Nat) (channel codec : String) (packet_duration : Nat) :
    Message :=
  .StartStream seq channel none codec none packet_duration

/-- Constructor `Message::stop_stream`. -/
def Message.stop_stream (seq : Nat) (stream_id : Nat) : Message :=
  .StopStream seq stream_id

/-- Responses from the server (src/message.rs `Response`, serde-untagged). -/
inductive Response where
  | Logon (seq : Nat) (success : Bool) (refresh_token : String) (error : Option String)
  | Generic (seq : Nat) (success : Bool) (error : Option String)
deriving DecidableEq, Repr

/-- Server error notices (src/message.rs `Error`). -/
inductive ErrorNotice where
  | Error (error : String)
deriving DecidableEq, Repr

/-- Server events (src/message.rs `Event`). -/
inductive Event where
  | TextMessage (message_id : Nat) (channel «from» : String) (for_user : Option String)
      (text : String) (author : Option String)
  | AudioStart (stream_id : Nat) (channel «from» : String) (for_user : Option String)
      (codec : String) (codec_header : Option String) (packet_duration : Nat)
  | AudioData (stream_id packet_id : Nat) (data : List Nat)
  | AudioStop (stream_id : Nat)
  | ChannelStatus (channel status : String) (users_online : Nat)
      (images : Option (List ChannelImage))
  | OnlineStatus (channel «from» : String) (online : Bool)
deriving DecidableEq, Repr

/-- Top-level incoming message union (src/message.rs `IncomingMessage`). -/
inductive IncomingMessage where
  | Response (r : Response)
  | Error (e : ErrorNotice)
  | Event (e : Event)
deriving DecidableEq, Repr

/-! Codec header (src/message.rs `CodecHeader`). -/

/-- Opus codec header with audio parameters. The Rust fields are `u16`, `u8`,
`u8`; here they are `Nat` with the machine-width bounds expressed by
`CodecHeader.Valid`. -/
structure CodecHeader where
  sample_rate_hz : Nat
  frames_per_packet : Nat
  frame_size_ms : Nat
deriving DecidableEq, Repr

/-- Machine-width invariant of the Rust field types (`u16`, `u8`, `u8`). -/
def CodecHeader.Valid (h : CodecHeader) : Prop :=
  h.sample_rate_hz < 65536 ∧ h.frames_per_packet < 256 ∧ h.frame_size_ms < 256

instance (h : CodecHeader) : Decidable h.Valid := by
  unfold CodecHeader.Valid
  infer_instance

/-- `CodecHeader::from_bytes`: exactly 4 bytes are required; the sample rate is
read little-endian (`get_u16_le`), then one byte each for frames-per-packet and
frame duration.  The `anyhow` error is modelled as `Except.error` with the
formatted message. -/
def CodecHeader.from_bytes : List Nat → Except String CodecHeader
  | [b0, b1, b2, b3] =>
      .ok { sample_rate_hz := b0 % 256 + 256 * (b1 % 256),
            frames_per_packet := b2 % 256,
            frame_size_ms := b3 % 256 }
  | bs =>
      .error ("Invalid codec header length: expected 4 bytes, got " ++ toString bs.length)

/-- `CodecHeader::to_bytes`: `put_u16_le` writes the low byte then the high
byte, then one byte each for the remaining fields. -/
def CodecHeader.to_bytes (h : CodecHeader) : List Nat :=
  [h.sample_rate_hz % 256, h.sample_rate_hz / 256 % 256,
   h.frames_per_packet % 256, h.frame_size_ms % 256]

/-! WebSocket receive path (src/protocol.rs `Protocol::receive`). -/

/-- The tungstenite frame kinds matched by `Protocol::receive` (payloads of
ping/pong/close are ignored by the source, so they are dropped here). -/
inductive WsMessage where
  | Text (s : String)
  | Binary (data : List Nat)
  | Ping
  | Pong
  | Close
  | Frame
deriving DecidableEq, Repr

/-- One item produced by `self.ws.next()`: a frame or a websocket error (the
error's display string is kept). The end of the underlying stream (`None`)
is the end of the item list. -/
inductive WsItem where
  | ok (m : WsMessage)
  | err (msg : String)
deriving DecidableEq, Repr

/-- `bytes::Buf::get_u8`: reads one byte, panicking (here `none`) when the
buffer is empty. -/
def get_u8 : List Nat → Option (Nat × List Nat)
  | [] => none
  | b :: rest => some (b % 256, rest)

/-- `bytes::Buf::get_u32`: reads a big-endian u32, panicking (here `none`)
when fewer than 4 bytes remain. -/
def get_u32 : List Nat → Option (Nat × List Nat)
  | a :: b :: c :: d :: rest =>
      some ((((a % 256) * 256 + b % 256) * 256 + c % 256) * 256 + d % 256, rest)
  | _ => none

/-- A big-endian 32-bit word assembled from a 4-byte list; used to state what
the binary-frame header fields are. -/
def be_u32_of : List Nat → Nat
  | a :: b :: c :: d :: _ =>
      (((a % 256) * 256 + b % 256) * 256 + c % 256) * 256 + d % 256
  | _ => 0

/-- The binary branch of `Protocol::receive`: `get_u8` for the frame-type tag,
`get_u32` for the stream id, `get_u32` for the packet id, and
`split_to(data.len())` for the remaining audio payload. `none` models the
panic of a `bytes::Buf` read past the end of the buffer. -/
def decode_binary (data : List Nat) : Option Event :=
  match get_u8 data with
  | none => none
  | some (_, r1) =>
      match get_u32 r1 with
      | none => none
      | some (stream_id, r2) =>
          match get_u32 r2 with
          | none => none
          | some (packet_id, audio) => some (.AudioData stream_id packet_id audio)

/-- `Protocol::receive` over the remaining inbound items. `parse` stands for
`serde_json::from_str` on text frames (its failure propagates as the JSON
error). The outer `Option` models partiality: `none` is a panic inside the
binary branch; otherwise the result is the `Result<Option<IncomingMessage>>`
of the source, with `Ok(None)` for a cleanly ended stream. -/
def receive (parse : String → Except String IncomingMessage) :
    List WsItem → Option (Except ZelloError (Option IncomingMessage))
  | [] => some (.ok none)
  | .ok (.Text s) :: _ =>
      match parse s with
      | .ok m => some (.ok (some m))
      | .error e => some (.error (.JsonError e))
  | .ok (.Binary data) :: _ =>
      match decode_binary data with
      | some ev => some (.ok (some (.Event ev)))
      | none => none
  | .ok .Ping :: rest => receive parse rest
  | .ok .Pong :: rest => receive parse rest
  | .ok .Close :: _ => some (.error (.ConnectionError "Connection closed"))
  | .ok .Frame :: _ => some (.error (.ProtocolError "Unexpected frame message"))
  | .err e :: _ => some (.error (.WebSocketError e))

/-! Serde serialization of outgoing messages (src/message.rs `Message` with
`serde(tag = "command")`). The model reproduces the exact JSON text
`serde_json::to_string` emits for this enum: the tag field first, then the
variant's fields in declaration order; an `Option` field with
`skip_serializing_if = "Option::is_none"` (only the four optionals of `Logon`)
is dropped when `None`, while the untagged `Option` fields (`for` of
`SendTextMessage`/`StartStream`, `codec_header` of `StartStream`) serialize
`None` as `null`. -/

/-- JSON string escaping for the characters serde escapes in the inputs we
model (quote and backslash; the claims use none of the control characters). -/
def jsonEscapeChar (c : Char) : String :=
  if c = '"' then "\\\"" else if c = '\\' then "\\\\" else String.singleton c

/-- A JSON string literal. -/
def jsonString (s : String) : String :=
  "\"" ++ String.join (s.data.map jsonEscapeChar) ++ "\""

/-- A non-skipped `Option<String>` field value: `null` for `None`. -/
def jsonOptString : Option String → String
  | none => "null"
  | some s => jsonString s

/-- A JSON array of strings. -/
def jsonStringList (xs : List String) : String :=
  "[" ++ String.intercalate "," (xs.map jsonString) ++ "]"

/-- The exact text frame `serde_json::to_string(&message)` produces, written
by `Protocol::send`. -/
def serializeMessage : Message → String
  | .Logon seq username password auth_token channels =>
      "\x7b\"command\":\"logon\",\"seq\":" ++ toString seq
        ++ (match username with
            | none => ""
            | some u => ",\"username\":" ++ jsonString u)
        ++ (match password with
            | none => ""
            | some p => ",\"password\":" ++ jsonString p)
        ++ (match auth_token with
            | none => ""
            | some t => ",\"auth_token\":" ++ jsonString t)
        ++ (match channels with
            | none => ""
            | some cs => ",\"channels\":" ++ jsonStringList cs)
        ++ "\x7d"
  | .SendTextMessage seq channel for_user text =>
      "\x7b\"command\":\"send_text_message\",\"seq\":" ++ toString seq
        ++ ",\"channel\":" ++ jsonString channel
        ++ ",\"for\":" ++ jsonOptString for_user
        ++ ",\"text\":" ++ jsonString text ++ "\x7d"
  | .StartStream seq channel for_user codec codec_header packet_duration =>
      "\x7b\"command\":\"start_stream\",\"seq\":" ++ toString seq
        ++ ",\"channel\":" ++ jsonString channel
        ++ ",\"for\":" ++ jsonOptString for_user
        ++ ",\"codec\":" ++ jsonString codec
        ++ ",\"codec_header\":" ++ jsonOptString codec_header
        ++ ",\"packet_duration\":" ++ toString packet_duration ++ "\x7d"
  | .StopStream seq stream_id =>
      "\x7b\"command\":\"stop_stream\",\"seq\":" ++ toString seq
        ++ ",\"stream_id\":" ++ toString stream_id ++ "\x7d"

/-- Substring occurrence on character lists. -/
def subListOccurs (needle : List Char) : List Char → Bool
  | [] => needle.isEmpty
  | c :: t => needle.isPrefixOf (c :: t) || subListOccurs needle t

/-- Substring occurrence on strings, used to state the containment facts of
the serialization claims. -/
def strContains (hay needle : String) : Bool :=
  subListOccurs needle.data hay.data

/-! Client session state (src/client.rs `ZelloClient`). Methods become pure
functions on the state that also return the list of transport writes they
perform; the response awaited by `start_audio_stream`/`authenticate` is an
explicit argument. -/

/-- Configuration (src/client.rs `ZelloConfig`). -/
structure ZelloConfig where
  username : Option String
  password : Option String
  channel : String
  auth_token : Option String
deriving DecidableEq, Repr

/-- `ZelloConfig::validate`. -/
def ZelloConfig.validate (cfg : ZelloConfig) : Except ZelloError Unit :=
  if cfg.channel.isEmpty then
    .error (.ConfigError "Channel cannot be empty")
  else if !(cfg.auth_token.isSome && cfg.username.isSome && cfg.password.isSome) then
    .error (.ConfigError "Must provide auth_token and username/password")
  else
    match cfg.username, cfg.password, cfg.auth_token with
    | some username, some password, some token =>
        if username.isEmpty || password.isEmpty || token.isEmpty then
          .error (.ConfigError "Username, password, and auth token cannot be empty")
        else .ok ()
    | _, _, _ => .ok ()

/-- Attributes of a Zello stream (src/client.rs `StreamInfo`). -/
structure StreamInfo where
  channel : String
  codec : String
  callsign : Option String
deriving DecidableEq, Repr

/-- Membership in a `HashMap<u32, StreamInfo>` modelled as an association
list (`contains_key`). -/
def mapContains (m : List (Nat × StreamInfo)) (k : Nat) : Bool :=
  m.any (fun p => p.1 == k)

/-- `HashMap::insert` (replacing any previous binding of the key). -/
def mapInsert (m : List (Nat × StreamInfo)) (k : Nat) (v : StreamInfo) :
    List (Nat × StreamInfo) :=
  (k, v) :: m.filter (fun p => p.1 != k)

/-- `HashMap::remove`. -/
def mapRemove (m : List (Nat × StreamInfo)) (k : Nat) : List (Nat × StreamInfo) :=
  m.filter (fun p => p.1 != k)

/-- `HashMap::get`. -/
def mapGet (m : List (Nat × StreamInfo)) (k : Nat) : Option StreamInfo :=
  (m.find? (fun p => p.1 == k)).map (fun p => p.2)

/-- The client state: `ZelloClient` fields together with the wrapped
`Protocol`'s sequence counter (the websocket itself is externalized into the
item lists / write lists of the operations). -/
structure ZelloClient where
  config : ZelloConfig
  sequence : Nat
  authenticated : Bool
  active_streams : List (Nat × StreamInfo)
  active_inbound_streams : List (Nat × StreamInfo)
  refresh_token : String
deriving DecidableEq, Repr

/-- One transport write performed by an operation: a JSON text frame carrying
an outgoing `Message`, or a raw binary frame. -/
inductive WsWrite where
  | text (m : Message)
  | binary (data : List Nat)
deriving DecidableEq, Repr

/-- `Protocol::next_seq`: returns the current counter and advances it with
u32 wraparound. -/
def next_seq (c : ZelloClient) : Nat × ZelloClient :=
  (c.sequence, { c with sequence := (c.sequence + 1) % 4294967296 })

instance exceptDecEq {ε α : Type} [DecidableEq ε] [DecidableEq α] :
    DecidableEq (Except ε α) := fun x y =>
  match x, y with
  | .ok a, .ok b =>
      if h : a = b then .isTrue (by rw [h])
      else .isFalse (by intro hh; cases hh; exact h rfl)
  | .ok _, .error _ => .isFalse (by intro h; cases h)
  | .error _, .ok _ => .isFalse (by intro h; cases h)
  | .error e, .error f =>
      if h : e = f then .isTrue (by rw [h])
      else .isFalse (by intro hh; cases hh; exact h rfl)

/-- Outcome of an awaited `timeout(_, self.protocol.receive())`: either the
timer elapsed, or `receive` completed with its `Result<Option<_>>`. -/
inductive RecvOutcome where
  | timeout
  | received (r : Except ZelloError (Option IncomingMessage))
deriving DecidableEq, Repr

/-- The bounded wait used around the logon response, in seconds
(`Duration::from_secs(10)`). -/
def AUTH_TIMEOUT_SECS : Nat := 10

/-- The bounded wait used around the start-stream response, in seconds
(`Duration::from_secs(5)`). -/
def START_STREAM_TIMEOUT_SECS : Nat := 5

/-- The wait-and-match phase of `ZelloClient::authenticate` after the logon
message has been sent. -/
def authenticate_wait (c : ZelloClient) (outcome : RecvOutcome) :
    Except ZelloError ZelloClient :=
  match outcome with
  | .timeout => .error .Timeout
  | .received (.error e) => .error e
  | .received (.ok (some (.Response (.Logon _ true refresh_token _)))) =>
      .ok { c with authenticated := true, refresh_token := refresh_token }
  | .received (.ok (some (.Response (.Logon _ false _ error)))) =>
      .error (.AuthenticationError (error.getD ""))
  | .received _ => .error (.ProtocolError "Unexpected response to logon")

/-- `ZelloClient::authenticate`: builds the logon message from the configured
credentials, sends it, then waits for the response (`authenticate_wait`). -/
def authenticate (c : ZelloClient) (outcome : RecvOutcome) :
    Except ZelloError ZelloClient × List WsWrite :=
  match c.config.username, c.config.password, c.config.auth_token with
  | some user, some password, some token =>
      (authenticate_wait (next_seq c).2 outcome,
       [.text (Message.logon_password (next_seq c).1 user password token c.config.channel)])
  | _, _, some token =>
      (authenticate_wait (next_seq c).2 outcome,
       [.text (Message.logon_token (next_seq c).1 token c.config.channel)])
  | _, _, _ =>
      (.error (.AuthenticationError "Insufficient Authentication credentials provided"), [])

/-- `ZelloClient::new`: validate the configuration, connect (the connection
itself is external; the fresh `Protocol` starts its sequence at 1), then
authenticate. An error anywhere aborts construction with no client value. -/
def ZelloClient.new (config : ZelloConfig) (outcome : RecvOutcome) :
    Except ZelloError ZelloClient × List WsWrite :=
  match config.validate with
  | .error e => (.error e, [])
  | .ok _ =>
      authenticate
        { config := config, sequence := 1, authenticated := false,
          active_streams := [], active_inbound_streams := [], refresh_token := "" }
        outcome

/-- `ZelloClient::send_text_message`. -/
def send_text_message (c : ZelloClient) (text : String) :
    Except ZelloError Unit × ZelloClient × List WsWrite :=
  if !c.authenticated then
    (.error .NotConnected, c, [])
  else
    (.ok (), (next_seq c).2,
     [.text (Message.send_text (next_seq c).1 c.config.channel text)])

/-- `ZelloClient::send_text_message_to_callsign`. -/
def send_text_message_to_callsign (c : ZelloClient) (text callsign : String) :
    Except ZelloError Unit × ZelloClient × List WsWrite :=
  if !c.authenticated then
    (.error .NotConnected, c, [])
  else
    (.ok (), (next_seq c).2,
     [.text (Message.send_text_for_callsign (next_seq c).1 c.config.channel text callsign)])

/-- `ZelloClient::start_audio_stream`: requires authentication, sends a
start-stream request, then waits (bounded by `START_STREAM_TIMEOUT_SECS`) for
the correlated response; on success the stream is recorded under the request's
sequence number. -/
def start_audio_stream (c : ZelloClient) (codec : String) (packet_duration : Nat)
    (resp : RecvOutcome) : Except ZelloError Nat × ZelloClient × List WsWrite :=
  if !c.authenticated then
    (.error .NotConnected, c, [])
  else
    let seqN := (next_seq c).1
    let c1 := (next_seq c).2
    let w := [WsWrite.text (Message.start_stream seqN c.config.channel codec packet_duration)]
    match resp with
    | .timeout => (.error .Timeout, c1, w)
    | .received (.error e) => (.error e, c1, w)
    | .received (.ok (some (.Response (.Generic _ true _)))) =>
        (.ok seqN,
         { c1 with active_streams :=
             mapInsert c1.active_streams seqN ⟨c.config.channel, codec, none⟩ },
         w)
    | .received (.ok (some (.Response (.Generic _ false error)))) =>
        (.error (.AudioError (error.getD "Failed to start stream")), c1, w)
    | .received _ => (.error (.ProtocolError "Unexpected response to start_stream"), c1, w)

/-- `ZelloClient::send_audio_packet`: the id must be in the outbound stream
map; otherwise an audio error and no transport write. -/
def send_audio_packet (c : ZelloClient) (stream_id : Nat) (data : List Nat) :
    Except ZelloError Unit × ZelloClient × List WsWrite :=
  if !(mapContains c.active_streams stream_id) then
    (.error (.AudioError "Invalid stream ID"), c, [])
  else
    (.ok (), c, [.binary data])

/-- `ZelloClient::stop_audio_stream`: the id must be in the outbound stream
map; the stop message is sent and the entry removed without awaiting any
acknowledgement. -/
def stop_audio_stream (c : ZelloClient) (stream_id : Nat) :
    Except ZelloError Unit × ZelloClient × List WsWrite :=
  if !(mapContains c.active_streams stream_id) then
    (.error (.AudioError "Invalid stream ID"), c, [])
  else
    let c1 := (next_seq c).2
    (.ok (),
     { c1 with active_streams := mapRemove c.active_streams stream_id },
     [.text (Message.stop_stream (next_seq c).1 stream_id)])

/-- `ZelloClient::add_inbound_stream`. -/
def add_inbound_stream (c : ZelloClient) (stream_id : Nat) (channel codec : String)
    (callsign : Option String) : Except ZelloError Unit × ZelloClient :=
  (.ok (),
   { c with active_inbound_streams :=
       mapInsert c.active_inbound_streams stream_id ⟨channel, codec, callsign⟩ })

/-- `ZelloClient::get_inbound_stream`. -/
def get_inbound_stream (c : ZelloClient) (stream_id : Nat) : Option StreamInfo :=
  mapGet c.active_inbound_streams stream_id

/-- `ZelloClient::remove_inbound_stream`: unconditionally removes and returns
`Ok(())` whether or not the id was present. -/
def remove_inbound_stream (c : ZelloClient) (stream_id : Nat) :
    Except ZelloError Unit × ZelloClient :=
  (.ok (), { c with active_inbound_streams := mapRemove c.active_inbound_streams stream_id })

/-- `handle_audio_stop` (src/handlers.rs): logs if the stream is known, then
propagates `remove_inbound_stream` with the `?` operator. -/
def handle_audio_stop (c : ZelloClient) (stream_id : Nat) :
    Except ZelloError Unit × ZelloClient :=
  match remove_inbound_stream c stream_id with
  | (.ok _, c1) => (.ok (), c1)
  | (.error e, c1) => (.error e, c1)

/-! Playback path (src/handlers.rs `process_audio_output`). The `f32` samples
are modelled as rationals: `f32::from(i16)` is exact, and multiplying by the
scale constant `1.0 / 32768.0` (an exact power of two well inside the
exponent range) incurs no rounding, so every value the callback computes is
represented exactly. -/

/-- `PCM_I16_TO_F32` of src/lib.rs, the fixed i16-to-float scale. -/
def PCM_I16_TO_F32 : Rat := 1 / 32768

/-- The drain loop of `process_audio_output`: every currently available PCM
chunk from the channel is appended to the accumulator in arrival order, each
sample converted by the fixed scale. -/
def drain_chunks : List (List Int) → List Rat
  | [] => []
  | pcm :: rest => pcm.map (fun s => (s : Rat) * PCM_I16_TO_F32) ++ drain_chunks rest

/-- The fill loop of `process_audio_output`: each output position pops the
accumulator's front, with `unwrap_or(0.0)` writing silence on shortfall.
Returns the written output and the remaining accumulator. -/
def fill_output : Nat → List Rat → List Rat × List Rat
  | 0, buffer => ([], buffer)
  | n + 1, [] =>
      let r := fill_output n []
      (0 :: r.1, r.2)
  | n + 1, x :: buffer =>
      let r := fill_output n buffer
      (x :: r.1, r.2)

/-- `process_audio_output output pcm_rx buffer` with an output slice of length
`outputLen`, the currently available chunks of the channel, and the local
accumulator: drain, then fill. -/
def process_audio_output (outputLen : Nat) (pcm_chunks : List (List Int))
    (buffer : List Rat) : List Rat × List Rat :=
  fill_output outputLen (buffer ++ drain_chunks pcm_chunks)

/-! Concrete states used by witnesses and counterexamples. -/

/-- A valid configuration, as built by `ZelloConfig::new`. -/
def testConfig : ZelloConfig :=
  { username := some "user", password := some "pass",
    channel := "channel", auth_token := some "token" }

/-- The freshly connected, not yet authenticated client built inside
`ZelloClient::new` before `authenticate` runs. -/
def unauthClient : ZelloClient :=
  { config := testConfig, sequence := 1, authenticated := false,
    active_streams := [], active_inbound_streams := [], refresh_token := "" }

/-- An authenticated client with one outbound stream recorded under id 4. -/
def authedClient : ZelloClient :=
  { config := testConfig, sequence := 5, authenticated := true,
    active_streams := [(4, ⟨"channel", "opus", none⟩)],
    active_inbound_streams := [], refresh_token := "rt" }

/-! Helper lemmas. -/

/-- Removing a key from the stream map makes lookups of that key fail. -/
theorem mapContains_mapRemove (m : List (Nat × StreamInfo)) (k : Nat) :
    mapContains (mapRemove m k) k = false := by
  induction m with
  | nil => rfl
  | cons p t ih =>
    by_cases h : p.1 = k
    · simp only [mapRemove, List.filter_cons, h] at ih ⊢
      simp [ih]
    · simp [mapRemove, mapContains, List.filter_cons, h, ih]

/-- Removing an absent key leaves the stream map unchanged. -/
theorem mapRemove_of_not_contains (m : List (Nat × StreamInfo)) (k : Nat)
    (h : mapContains m k = false) : mapRemove m k = m := by
  induction m with
  | nil => rfl
  | cons p t ih =>
    simp only [mapContains, List.any_cons, Bool.or_eq_false_iff] at h
    simp only [mapRemove, List.filter_cons]
    rw [if_pos (by simpa using h.1)]
    exact congrArg (p :: ·) (ih (by simpa [mapContains] using h.2))

/-- The fill loop takes from the accumulator's front and pads with zeros. -/
theorem fill_output_eq (n : Nat) (buffer : List Rat) :
    fill_output n buffer =
      (buffer.take n ++ List.replicate (n - buffer.length) 0, buffer.drop n) := by
  induction n generalizing buffer with
  | zero => simp [fill_output]
  | succ n ih =>
    cases buffer with
    | nil => simp [fill_output, ih, List.replicate_succ]
    | cons x t => simp [fill_output, ih]

/-- A successful authentication wait always marks the client authenticated. -/
theorem authenticate_wait_ok_authenticated (c : ZelloClient) (outcome : RecvOutcome)
    (st : ZelloClient) (h : authenticate_wait c outcome = .ok st) :
    st.authenticated = true := by
  unfold authenticate_wait at h
  split at h <;> simp_all
  exact h.symm ▸ rfl

/-- A successful `authenticate` always marks the client authenticated. -/
theorem authenticate_ok_authenticated (c : ZelloClient) (outcome : RecvOutcome)
    (st : ZelloClient) (h : (authenticate c outcome).1 = .ok st) :
    st.authenticated = true := by
  unfold authenticate at h
  split at h <;> simp_all <;>
    exact authenticate_wait_ok_authenticated _ _ _ h

/-- Claim C1: `CodecHeader` round-trips — decoding the 4 bytes produced by
encoding any (machine-valid) header yields it back; decoding any buffer whose
length is not exactly 4 fails with the format error; and the concrete bytes
[0x80, 0x3E, 0x01, 0x3C] decode to sample rate 16000, frames-per-packet 1,
frame duration 60. -/
theorem c1_codec_header_round_trip :
    (∀ h : CodecHeader, h.Valid → CodecHeader.from_bytes h.to_bytes = Except.ok h) ∧
    (∀ bs : List Nat, bs.length ≠ 4 → ∃ msg, CodecHeader.from_bytes bs = Except.error msg) ∧
    CodecHeader.from_bytes [0x80, 0x3E, 0x01, 0x3C] = Except.ok ⟨16000, 1, 60⟩ := by
  refine ⟨?_, ?_, rfl⟩
  · rintro ⟨r, f, s⟩ ⟨hr, hf, hs⟩
    simp only [CodecHeader.to_bytes, CodecHeader.from_bytes, Except.ok.injEq,
      CodecHeader.mk.injEq]
    dsimp only at hr hf hs ⊢
    refine ⟨?_, ?_, ?_⟩ <;> omega
  · intro bs hlen
    rcases bs with _ | ⟨a, _ | ⟨b, _ | ⟨c, _ | ⟨d, _ | ⟨e, t⟩⟩⟩⟩⟩ <;>
      first
        | exact ⟨_, rfl⟩
        | (exfalso; exact hlen rfl)

/-- Witness for C1 at the header (16000, 1, 60) and a 3-byte buffer. -/
theorem c1_codec_header_round_trip_witness :
    CodecHeader.from_bytes (CodecHeader.to_bytes ⟨16000, 1, 60⟩) = Except.ok ⟨16000, 1, 60⟩ ∧
    ∃ msg, CodecHeader.from_bytes [1, 2, 3] = Except.error msg :=
  ⟨c1_codec_header_round_trip.1 ⟨16000, 1, 60⟩ (by decide),
   c1_codec_header_round_trip.2.1 [1, 2, 3] (by decide)⟩

/-- Claim C2: `receive` loops past ping and pong frames without surfacing
them; a close frame is a connection error, never the clean end-of-stream
`none`; the clean `none` arises exactly when the transport's item stream ends
(possibly after ping/pong frames only); and the remaining unexpected frame
kind is a protocol error. -/
theorem c2_receive_control_frames (parse : String → Except String IncomingMessage) :
    (∀ rest, receive parse (.ok .Ping :: rest) = receive parse rest) ∧
    (∀ rest, receive parse (.ok .Pong :: rest) = receive parse rest) ∧
    (∀ rest, receive parse (.ok .Close :: rest) =
        some (.error (.ConnectionError "Connection closed"))) ∧
    (∀ rest, receive parse (.ok .Frame :: rest) =
        some (.error (.ProtocolError "Unexpected frame message"))) ∧
    (∀ items, receive parse items = some (.ok none) ↔
        ∀ x ∈ items, x = .ok .Ping ∨ x = .ok .Pong) := by
  refine ⟨fun _ => rfl, fun _ => rfl, fun _ => rfl, fun _ => rfl, fun items => ?_⟩
  induction items with
  | nil => simp [receive]
  | cons h t ih =>
    cases h with
    | err e => simp [receive]
    | ok m =>
      cases m with
      | Text s => cases hp : parse s <;> simp [receive, hp]
      | Binary data => cases hd : decode_binary data <;> simp [receive, hd]
      | Ping => simpa [receive] using ih
      | Pong => simpa [receive] using ih
      | Close => simp [receive]
      | Frame => simp [receive]

/-- Witness for C2: a stream of one ping and one pong ends cleanly. -/
theorem c2_receive_control_frames_witness :
    receive (fun _ => Except.error "") [.ok .Ping, .ok .Pong] =
      some (Except.ok none) :=
  ((c2_receive_control_frames (fun _ => Except.error "")).2.2.2.2
      [.ok .Ping, .ok .Pong]).mpr (by decide)

/-- Claim C3: a binary frame of length at least 9 decodes to an `AudioData`
event whose stream id is the big-endian u32 at offsets 1..5, whose packet id
is the big-endian u32 at offsets 5..9, and whose payload is the remaining
bytes past the 9-byte header. -/
theorem c3_receive_binary_decode (parse : String → Except String IncomingMessage)
    (data : List Nat) (rest : List WsItem) (h : 9 ≤ data.length) :
    receive parse (.ok (.Binary data) :: rest) =
      some (.ok (some (.Event (.AudioData
        (be_u32_of ((data.drop 1).take 4))
        (be_u32_of ((data.drop 5).take 4))
        (data.drop 9))))) := by
  rcases data with _ | ⟨b0, _ | ⟨b1, _ | ⟨b2, _ | ⟨b3, _ | ⟨b4, _ | ⟨b5, _ | ⟨b6, _ |
    ⟨b7, _ | ⟨b8, audio⟩⟩⟩⟩⟩⟩⟩⟩⟩ <;>
    first
      | rfl
      | (exfalso; simp only [List.length_cons, List.length_nil] at h; omega)

/-- Witness for C3 at a concrete 10-byte frame. -/
theorem c3_receive_binary_decode_witness :
    receive (fun _ => Except.error "") [.ok (.Binary [9, 0, 0, 0, 1, 0, 0, 0, 2, 171])] =
      some (.ok (some (.Event (.AudioData 1 2 [171])))) :=
  (c3_receive_binary_decode (fun _ => Except.error "")
    [9, 0, 0, 0, 1, 0, 0, 0, 2, 171] [] (by decide)).trans (by rfl)

/-- Claim C10: the binary branch is total exactly on frames of length at
least 9 — any shorter binary frame makes the header extraction panic
(modelled by `none`, surfacing no `ZelloError`), while a frame of length at
least 9 completes. -/
theorem c10_binary_header_panic (parse : String → Except String IncomingMessage)
    (data : List Nat) (rest : List WsItem) :
    (data.length < 9 → decode_binary data = none ∧
        receive parse (.ok (.Binary data) :: rest) = none) ∧
    (9 ≤ data.length → (decode_binary data).isSome = true) := by
  rcases data with _ | ⟨b0, _ | ⟨b1, _ | ⟨b2, _ | ⟨b3, _ | ⟨b4, _ | ⟨b5, _ | ⟨b6, _ |
    ⟨b7, _ | ⟨b8, audio⟩⟩⟩⟩⟩⟩⟩⟩⟩ <;>
    refine ⟨fun hlt => ?_, fun hge => ?_⟩ <;>
    first
      | exact ⟨rfl, rfl⟩
      | rfl
      | (exfalso; simp only [List.length_cons, List.length_nil] at hlt; omega)
      | (exfalso; simp only [List.length_cons, List.length_nil] at hge; omega)

/-- Witness for C10 at a 3-byte and a 9-byte frame. -/
theorem c10_binary_header_panic_witness :
    decode_binary [1, 2, 3] = none ∧
    (decode_binary [0, 0, 0, 0, 1, 0, 0, 0, 2]).isSome = true :=
  ⟨((c10_binary_header_panic (fun _ => Except.error "") [1, 2, 3] []).1 (by decide)).1,
   (c10_binary_header_panic (fun _ => Except.error "")
      [0, 0, 0, 0, 1, 0, 0, 0, 2] []).2 (by decide)⟩

/-- Counterexample to C4: in the freshly connected, unauthenticated client
state, `send_audio_packet` (and `stop_audio_stream`) fail with
`AudioError "Invalid stream ID"` — not with `NotConnected` as the claim
states — because neither method consults the authentication flag. -/
theorem c4_not_connected_counterexample :
    unauthClient.authenticated = false ∧
    send_audio_packet unauthClient 999 [] =
      (Except.error (ZelloError.AudioError "Invalid stream ID"), unauthClient, []) ∧
    (send_audio_packet unauthClient 999 []).1 ≠ Except.error ZelloError.NotConnected ∧
    stop_audio_stream unauthClient 999 =
      (Except.error (ZelloError.AudioError "Invalid stream ID"), unauthClient, []) ∧
    (stop_audio_stream unauthClient 999).1 ≠ Except.error ZelloError.NotConnected := by
  refine ⟨rfl, rfl, ?_, rfl, ?_⟩ <;> decide

/-- Amended C4: when not authenticated, `send_text_message` and
`start_audio_stream` fail with `NotConnected` and perform no transport
operation; `send_audio_packet` and `stop_audio_stream` do not consult the
authentication flag — they check only the outbound stream map and fail with
`AudioError "Invalid stream ID"` (the situation of every unauthenticated
reachable state, whose map is empty), also with no transport operation. -/
theorem c4_amended_auth_gating (c : ZelloClient) (text codec : String)
    (packet_duration : Nat) (resp : RecvOutcome) (stream_id : Nat) (data : List Nat) :
    (c.authenticated = false →
      send_text_message c text = (.error .NotConnected, c, []) ∧
      start_audio_stream c codec packet_duration resp = (.error .NotConnected, c, [])) ∧
    (mapContains c.active_streams stream_id = false →
      send_audio_packet c stream_id data =
        (.error (.AudioError "Invalid stream ID"), c, []) ∧
      stop_audio_stream c stream_id =
        (.error (.AudioError "Invalid stream ID"), c, [])) := by
  constructor
  · intro h
    constructor <;> simp [send_text_message, start_audio_stream, h]
  · intro h
    constructor <;> simp [send_audio_packet, stop_audio_stream, h]

/-- Witness for the amended C4 at the fresh unauthenticated client. -/
theorem c4_amended_auth_gating_witness :
    send_text_message unauthClient "hi" = (.error .NotConnected, unauthClient, []) ∧
    stop_audio_stream unauthClient 999 =
      (.error (.AudioError "Invalid stream ID"), unauthClient, []) :=
  ⟨((c4_amended_auth_gating unauthClient "hi" "opus" 60 .timeout 999 []).1 rfl).1,
   ((c4_amended_auth_gating unauthClient "hi" "opus" 60 .timeout 999 []).2 rfl).2⟩

/-- Claim C5: the authentication wait fails with `Timeout` when the bounded
wait (10 seconds) elapses, with `AuthenticationError` carrying exactly the
server-supplied error string on a failed logon response, and with
`ProtocolError` on any non-Response message; and any client value returned by
construction is fully authenticated (an error aborts construction with no
partial session). -/
theorem c5_authenticate_failure_modes (c : ZelloClient) (seqN : Nat) (rt e : String)
    (m : IncomingMessage) (hm : ∀ r, m ≠ IncomingMessage.Response r)
    (cfg : ZelloConfig) (outcome : RecvOutcome) (st : ZelloClient) :
    authenticate_wait c .timeout = .error .Timeout ∧
    AUTH_TIMEOUT_SECS = 10 ∧
    authenticate_wait c
        (.received (.ok (some (.Response (.Logon seqN false rt (some e)))))) =
      .error (.AuthenticationError e) ∧
    authenticate_wait c (.received (.ok (some m))) =
      .error (.ProtocolError "Unexpected response to logon") ∧
    ((ZelloClient.new cfg outcome).1 = .ok st → st.authenticated = true) := by
  refine ⟨rfl, rfl, rfl, ?_, ?_⟩
  · cases m with
    | Response r => exact absurd rfl (hm r)
    | Error e2 => rfl
    | Event ev => rfl
  · intro hok
    unfold ZelloClient.new at hok
    split at hok
    · simp at hok
    · exact authenticate_ok_authenticated _ _ _ hok

/-- Witness for C5 at the "bad token" response, a timeout, and an event. -/
theorem c5_authenticate_failure_modes_witness :
    authenticate_wait unauthClient
        (.received (.ok (some (.Response (.Logon 1 false "" (some "bad token")))))) =
      .error (.AuthenticationError "bad token") ∧
    authenticate_wait unauthClient .timeout = .error .Timeout ∧
    authenticate_wait unauthClient (.received (.ok (some (.Event (.AudioStop 7))))) =
      .error (.ProtocolError "Unexpected response to logon") := by
  have h := c5_authenticate_failure_modes unauthClient 1 "" "bad token"
    (.Event (.AudioStop 7)) (fun r hr => IncomingMessage.noConfusion hr)
    testConfig .timeout unauthClient
  exact ⟨h.2.2.1, h.1, h.2.2.2.1⟩

/-- Claim C6: `send_audio_packet` and `stop_audio_stream` on an id absent
from the outbound map fail with `AudioError` and write nothing; on a present
id, `stop_audio_stream` sends the stop message, removes the entry without
awaiting any acknowledgement (the function consumes no response), and an
immediately following stop on the same id fails with `AudioError` and writes
nothing. -/
theorem c6_outbound_stream_gating (c : ZelloClient) (stream_id : Nat) (data : List Nat) :
    (mapContains c.active_streams stream_id = false →
      send_audio_packet c stream_id data =
        (.error (.AudioError "Invalid stream ID"), c, []) ∧
      stop_audio_stream c stream_id =
        (.error (.AudioError "Invalid stream ID"), c, [])) ∧
    (mapContains c.active_streams stream_id = true →
      (stop_audio_stream c stream_id).1 = .ok () ∧
      (stop_audio_stream c stream_id).2.2 =
        [.text (Message.stop_stream c.sequence stream_id)] ∧
      mapContains (stop_audio_stream c stream_id).2.1.active_streams stream_id = false ∧
      (stop_audio_stream (stop_audio_stream c stream_id).2.1 stream_id).1 =
        .error (.AudioError "Invalid stream ID") ∧
      (stop_audio_stream (stop_audio_stream c stream_id).2.1 stream_id).2.2 = []) := by
  constructor
  · intro h
    constructor <;> simp [send_audio_packet, stop_audio_stream, h]
  · intro h
    have h2 : mapContains (mapRemove c.active_streams stream_id) stream_id = false :=
      mapContains_mapRemove _ _
    refine ⟨?_, ?_, ?_, ?_, ?_⟩ <;>
      simp [stop_audio_stream, next_seq, h, h2]

/-- Witness for C6 at the authenticated client holding stream 4. -/
theorem c6_outbound_stream_gating_witness :
    (send_audio_packet authedClient 999 [1]).1 =
      .error (.AudioError "Invalid stream ID") ∧
    (stop_audio_stream authedClient 4).1 = .ok () ∧
    (stop_audio_stream (stop_audio_stream authedClient 4).2.1 4).1 =
      .error (.AudioError "Invalid stream ID") := by
  have h1 := (c6_outbound_stream_gating authedClient 999 [1]).1 (by decide)
  have h2 := (c6_outbound_stream_gating authedClient 4 []).2 (by decide)
  exact ⟨by rw [h1.1], h2.1, h2.2.2.2.1⟩

/-- Counterexample to C7: removing an inbound stream whose identifier is
unknown succeeds as a silent no-op — `remove_inbound_stream` (and the
`handle_audio_stop` handler built on it) return `Ok` and leave the state
unchanged, contradicting "operating on an unknown stream identifier is an
error, never a silent no-op". -/
theorem c7_unknown_stream_counterexample :
    get_inbound_stream unauthClient 999 = none ∧
    remove_inbound_stream unauthClient 999 = (Except.ok (), unauthClient) ∧
    handle_audio_stop unauthClient 999 = (Except.ok (), unauthClient) := by
  refine ⟨rfl, ?_, ?_⟩ <;> rfl

/-- Amended C7: operations on the outbound map (`send_audio_packet`,
`stop_audio_stream`) with an unknown identifier are errors, but
`remove_inbound_stream` always succeeds — removal of an unknown inbound
identifier is a silent no-op (state unchanged), and `handle_audio_stop`
therefore also always succeeds. -/
theorem c7_amended_unknown_stream (c : ZelloClient) (stream_id : Nat) (data : List Nat) :
    (mapContains c.active_streams stream_id = false →
      (send_audio_packet c stream_id data).1 = .error (.AudioError "Invalid stream ID") ∧
      (stop_audio_stream c stream_id).1 = .error (.AudioError "Invalid stream ID")) ∧
    (remove_inbound_stream c stream_id).1 = .ok () ∧
    (mapContains c.active_inbound_streams stream_id = false →
      (remove_inbound_stream c stream_id).2 = c) ∧
    (handle_audio_stop c stream_id).1 = .ok () := by
  refine ⟨fun h => ?_, rfl, fun h => ?_, rfl⟩
  · constructor <;> simp [send_audio_packet, stop_audio_stream, h]
  · simp [remove_inbound_stream, mapRemove_of_not_contains _ _ h]

/-- Witness for the amended C7 at the fresh client and id 999. -/
theorem c7_amended_unknown_stream_witness :
    (stop_audio_stream unauthClient 999).1 = .error (.AudioError "Invalid stream ID") ∧
    (remove_inbound_stream unauthClient 999).2 = unauthClient :=
  ⟨((c7_amended_unknown_stream unauthClient 999 []).1 rfl).2,
   (c7_amended_unknown_stream unauthClient 999 []).2.2.1 rfl⟩

/-- Counterexample to C8: the claim says every field absent for a variant is
omitted rather than emitted as null, but `for_user` of `SendTextMessage`
carries no skip attribute, so the claim's own example — send-text for channel
"test_channel", text "Hello", sequence 1 — serializes the absent `for` field
as `"for":null`. -/
theorem c8_null_field_counterexample :
    serializeMessage (Message.send_text 1 "test_channel" "Hello") =
      "\x7b\"command\":\"send_text_message\",\"seq\":1,\"channel\":\"test_channel\",\"for\":null,\"text\":\"Hello\"\x7d" ∧
    strContains (serializeMessage (Message.send_text 1 "test_channel" "Hello"))
      "\"for\":null" = true := by
  constructor
  · rfl
  · rfl

/-- A substring occurrence survives prepending more text. -/
theorem subListOccurs_append_left (n b : List Char) (h : subListOccurs n b = true)
    (a : List Char) : subListOccurs n (a ++ b) = true := by
  induction a with
  | nil => simpa using h
  | cons c t ih =>
    simp only [List.cons_append, subListOccurs, Bool.or_eq_true]
    exact Or.inr ih

/-- A needle occurs at the front of itself followed by anything. -/
theorem subListOccurs_self_append (n b : List Char) : subListOccurs n (n ++ b) = true := by
  cases n with
  | nil =>
    cases b with
    | nil => rfl
    | cons c t => simp [subListOccurs]
  | cons c t =>
    simp only [List.cons_append, subListOccurs, Bool.or_eq_true]
    left
    simp only [List.isPrefixOf_iff_prefix]
    exact ⟨b, by simp⟩

/-- String-level form of `subListOccurs_append_left`. -/
theorem strContains_append_right (x y n : String) (h : strContains y n = true) :
    strContains (x ++ y) n = true := by
  unfold strContains at h ⊢
  simp only [String.data_append]
  exact subListOccurs_append_left _ _ h x.data

/-- String-level form of `subListOccurs_self_append`. -/
theorem strContains_self_append (n b : String) : strContains (n ++ b) n = true := by
  unfold strContains
  simp only [String.data_append]
  exact subListOccurs_self_append _ _

/-- Amended C8: for every outgoing request value, the variant discriminant is
carried in the named field "command" (the output of each of the four variants
begins with it, no wrapper key); the `Option` fields of `Logon` (the ones
with a skip attribute) are omitted when absent, with no null emitted; but the
attribute-less `for` field of `SendTextMessage` and `StartStream` and the
`codec_header` field of `StartStream` are serialized as null when absent —
shown by exact output equalities over all field values; the claim's send-text
example contains the send-text discriminant, the literal "Hello" and "seq":1
(and also "for":null). -/
theorem c8_amended_serialization :
    (∀ seq username password auth_token channels, ∃ rest,
        serializeMessage (.Logon seq username password auth_token channels) =
          "\x7b\"command\":\"logon\"" ++ rest) ∧
    (∀ seq channel for_user text, ∃ rest,
        serializeMessage (.SendTextMessage seq channel for_user text) =
          "\x7b\"command\":\"send_text_message\"" ++ rest) ∧
    (∀ seq channel for_user codec codec_header packet_duration, ∃ rest,
        serializeMessage
            (.StartStream seq channel for_user codec codec_header packet_duration) =
          "\x7b\"command\":\"start_stream\"" ++ rest) ∧
    (∀ seq stream_id, ∃ rest,
        serializeMessage (.StopStream seq stream_id) =
          "\x7b\"command\":\"stop_stream\"" ++ rest) ∧
    (∀ seq, serializeMessage (.Logon seq none none none none) =
        "\x7b\"command\":\"logon\",\"seq\":" ++ (toString seq ++ "\x7d")) ∧
    (∀ seq channel text,
        serializeMessage (.SendTextMessage seq channel none text) =
          "\x7b\"command\":\"send_text_message\",\"seq\":" ++ (toString seq ++
            (",\"channel\":" ++ (jsonString channel ++ (",\"for\":null" ++
              (",\"text\":" ++ (jsonString text ++ "\x7d"))))))) ∧
    (∀ seq channel codec packet_duration,
        serializeMessage (.StartStream seq channel none codec none packet_duration) =
          "\x7b\"command\":\"start_stream\",\"seq\":" ++ (toString seq ++
            (",\"channel\":" ++ (jsonString channel ++ (",\"for\":null" ++
              (",\"codec\":" ++ (jsonString codec ++ (",\"codec_header\":null" ++
                (",\"packet_duration\":" ++ (toString packet_duration ++ "\x7d")))))))))) ∧
    (∀ seq channel text, strContains
        (serializeMessage (.SendTextMessage seq channel none text))
        "\"for\":null" = true) ∧
    (∀ seq channel codec packet_duration, strContains
        (serializeMessage (.StartStream seq channel none codec none packet_duration))
        "\"for\":null" = true) ∧
    (∀ seq channel codec packet_duration, strContains
        (serializeMessage (.StartStream seq channel none codec none packet_duration))
        "\"codec_header\":null" = true) ∧
    strContains (serializeMessage (Message.send_text 1 "test_channel" "Hello"))
      "\"command\":\"send_text_message\"" = true ∧
    strContains (serializeMessage (Message.send_text 1 "test_channel" "Hello"))
      "Hello" = true ∧
    strContains (serializeMessage (Message.send_text 1 "test_channel" "Hello"))
      "\"seq\":1" = true ∧
    serializeMessage (Message.logon_token 1 "tok" "chan") =
      "\x7b\"command\":\"logon\",\"seq\":1,\"auth_token\":\"tok\",\"channels\":[\"chan\"]\x7d" ∧
    strContains (serializeMessage (Message.logon_token 1 "tok" "chan"))
      "username" = false ∧
    strContains (serializeMessage (Message.logon_token 1 "tok" "chan"))
      "password" = false ∧
    strContains (serializeMessage (Message.logon_token 1 "tok" "chan"))
      "null" = false ∧
    strContains (serializeMessage (Message.send_text 1 "test_channel" "Hello"))
      "\"for\":null" = true := by
  have h6 : ∀ seq channel text,
      serializeMessage (.SendTextMessage seq channel none text) =
        "\x7b\"command\":\"send_text_message\",\"seq\":" ++ (toString seq ++
          (",\"channel\":" ++ (jsonString channel ++ (",\"for\":null" ++
            (",\"text\":" ++ (jsonString text ++ "\x7d")))))) := by
    intro seq channel text
    rw [show (",\"for\":null" : String) = ",\"for\":" ++ "null" from rfl]
    simp only [serializeMessage, jsonOptString, String.append_assoc]
  have h7 : ∀ seq channel codec packet_duration,
      serializeMessage (.StartStream seq channel none codec none packet_duration) =
        "\x7b\"command\":\"start_stream\",\"seq\":" ++ (toString seq ++
          (",\"channel\":" ++ (jsonString channel ++ (",\"for\":null" ++
            (",\"codec\":" ++ (jsonString codec ++ (",\"codec_header\":null" ++
              (",\"packet_duration\":" ++ (toString packet_duration ++ "\x7d"))))))))) := by
    intro seq channel codec packet_duration
    rw [show (",\"for\":null" : String) = ",\"for\":" ++ "null" from rfl,
      show (",\"codec_header\":null" : String) = ",\"codec_header\":" ++ "null" from rfl]
    simp only [serializeMessage, jsonOptString, String.append_assoc]
  have h5 : ∀ seq, serializeMessage (.Logon seq none none none none) =
      "\x7b\"command\":\"logon\",\"seq\":" ++ (toString seq ++ "\x7d") := by
    intro seq
    simp only [serializeMessage, String.append_assoc, String.empty_append,
      String.append_empty]
  refine ⟨?_, ?_, ?_, ?_, h5, h6, h7, ?_, ?_, ?_,
    rfl, rfl, rfl, rfl, rfl, rfl, rfl, rfl⟩
  · intro seq username password auth_token channels
    apply Exists.intro
    simp only [serializeMessage]
    rw [show ("\x7b\"command\":\"logon\",\"seq\":" : String) =
        "\x7b\"command\":\"logon\"" ++ ",\"seq\":" from rfl]
    simp only [String.append_assoc]
    rfl
  · intro seq channel for_user text
    apply Exists.intro
    simp only [serializeMessage]
    rw [show ("\x7b\"command\":\"send_text_message\",\"seq\":" : String) =
        "\x7b\"command\":\"send_text_message\"" ++ ",\"seq\":" from rfl]
    simp only [String.append_assoc]
    rfl
  · intro seq channel for_user codec codec_header packet_duration
    apply Exists.intro
    simp only [serializeMessage]
    rw [show ("\x7b\"command\":\"start_stream\",\"seq\":" : String) =
        "\x7b\"command\":\"start_stream\"" ++ ",\"seq\":" from rfl]
    simp only [String.append_assoc]
    rfl
  · intro seq stream_id
    apply Exists.intro
    simp only [serializeMessage]
    rw [show ("\x7b\"command\":\"stop_stream\",\"seq\":" : String) =
        "\x7b\"command\":\"stop_stream\"" ++ ",\"seq\":" from rfl]
    simp only [String.append_assoc]
    rfl
  · intro seq channel text
    rw [h6 seq channel text]
    refine strContains_append_right _ _ _ (strContains_append_right _ _ _
      (strContains_append_right _ _ _ (strContains_append_right _ _ _ ?_)))
    rw [show (",\"for\":null" : String) = "," ++ "\"for\":null" from rfl,
      String.append_assoc]
    exact strContains_append_right _ _ _ (strContains_self_append _ _)
  · intro seq channel codec packet_duration
    rw [h7 seq channel codec packet_duration]
    refine strContains_append_right _ _ _ (strContains_append_right _ _ _
      (strContains_append_right _ _ _ (strContains_append_right _ _ _ ?_)))
    rw [show (",\"for\":null" : String) = "," ++ "\"for\":null" from rfl,
      String.append_assoc]
    exact strContains_append_right _ _ _ (strContains_self_append _ _)
  · intro seq channel codec packet_duration
    rw [h7 seq channel codec packet_duration]
    refine strContains_append_right _ _ _ (strContains_append_right _ _ _
      (strContains_append_right _ _ _ (strContains_append_right _ _ _
        (strContains_append_right _ _ _ (strContains_append_right _ _ _
          (strContains_append_right _ _ _ ?_))))))
    rw [show (",\"codec_header\":null" : String) = "," ++ "\"codec_header\":null" from rfl,
      String.append_assoc]
    exact strContains_append_right _ _ _ (strContains_self_append _ _)

/-- Claim C9: each invocation of the playback callback first drains every
currently available PCM chunk into the accumulator (each sample scaled by the
fixed factor), then fills the requested output length from the accumulator's
front, writing zero for every position past what it holds — in particular an
empty queue and empty accumulator yield all zeros — and the remaining
accumulator is exactly the drained-then-popped suffix. -/
theorem c9_playback_fill (n : Nat) (chunks : List (List Int)) (buffer : List Rat)
    (s : Int) (pcm : List Int) :
    (process_audio_output n chunks buffer).1 =
      (buffer ++ drain_chunks chunks).take n ++
        List.replicate (n - (buffer ++ drain_chunks chunks).length) 0 ∧
    (process_audio_output n chunks buffer).2 = (buffer ++ drain_chunks chunks).drop n ∧
    process_audio_output n [] [] = (List.replicate n 0, []) ∧
    drain_chunks ((s :: pcm) :: chunks) =
      (s : Rat) * PCM_I16_TO_F32 :: drain_chunks (pcm :: chunks) := by
  refine ⟨?_, ?_, ?_, rfl⟩ <;>
    simp [process_audio_output, fill_output_eq, drain_chunks]

end Zello
